import Mathlib

/-!
Verification of the fusionsite core (src/fusionsite.py) against its
specification.

The core is three pure functions:
  * `fusion n T E tau` — the objective function (net energy output);
  * `find_best_parameters` — exhaustive grid search over the Cartesian
    product of four ranges, maximizing `fusion` with a strict-greater
    update starting from `-inf` (modelled as `⊥ : WithBot ℚ`) and an
    empty best point (modelled as `none`);
  * `create_parameter_impact_plots` — a parametric sweep over
    `np.linspace(0.1, 2, 100)` holding three parameters fixed.

Scalars are embedded as exact rationals `ℚ`; the running maximum of the
grid search lives in `WithBot ℚ` so that the Python initialisation to
`-np.inf` and the comparison `output > max_output` are modelled exactly
(every real output is greater than `⊥`).  The nested `for` loops are
embedded as a left fold over the list of grid points enumerated in the
source's nesting order: `n` outermost, then `T`, then `E`, then `tau`
innermost.
-/

/-- A parameter point `(n, T, E, tau)`. -/
abbrev Pt : Type := ℚ × ℚ × ℚ × ℚ

/-- The objective function, translated line by line from `fusion` in
src/fusionsite.py:

    reactivity = n * T
    reaction_rate = reactivity * E
    energy_loss = n * T / tau
    net_energy_output = reaction_rate - energy_loss
    return net_energy_output
-/
def fusion (n T E tau : ℚ) : ℚ :=
  let reactivity := n * T
  let reaction_rate := reactivity * E
  let energy_loss := n * T / tau
  let net_energy_output := reaction_rate - energy_loss
  net_energy_output

/-- The objective function on a packed parameter point. -/
def fusionPt (p : Pt) : ℚ :=
  fusion p.1 p.2.1 p.2.2.1 p.2.2.2

/-- The grid points visited by the nested loops of
`find_best_parameters`, in iteration order: `n` varies outermost, then
`T`, then `E`, then `tau` innermost.  Position in this list is exactly
the lexicographic (outer-to-inner) iteration order of the source. -/
def allPoints (n_range T_range E_range tau_range : List ℚ) : List Pt :=
  n_range.flatMap fun n =>
    T_range.flatMap fun T =>
      E_range.flatMap fun E =>
        tau_range.map fun tau => (n, T, E, tau)

/-- One iteration of the loop body of `find_best_parameters`: the state
is `(max_output, best_params)`; if `output > max_output` both are
replaced, otherwise the state is unchanged. -/
def gridStep (s : WithBot ℚ × Option Pt) (p : Pt) : WithBot ℚ × Option Pt :=
  if ((fusionPt p : ℚ) : WithBot ℚ) > s.1 then (((fusionPt p : ℚ) : WithBot ℚ), some p) else s

/-- Grid search, translated from `find_best_parameters` in
src/fusionsite.py: `max_output` starts at `-np.inf` (here `⊥`),
`best_params` starts empty (here `none`), and the function returns
`(best_params, max_output)`. -/
def find_best_parameters (n_range T_range E_range tau_range : List ℚ) :
    Option Pt × WithBot ℚ :=
  let folded := (allPoints n_range T_range E_range tau_range).foldl gridStep (⊥, none)
  (folded.2, folded.1)

/-- The sweep grid `np.linspace(a, b, num)`: `num` equally spaced
samples from `a` to `b` inclusive (step `(b - a) / (num - 1)`). -/
def linspace (a b : ℚ) (num : ℕ) : List ℚ :=
  (List.range num).map fun (i : ℕ) => a + (i : ℚ) * ((b - a) / ((num - 1 : ℕ) : ℚ))

/-- The multiplier grid `np.linspace(0.1, 2, 100)` used by
`create_parameter_impact_plots`. -/
def param_range : List ℚ :=
  linspace (1 / 10) 2 100

/-- The data content of the figure returned by
`create_parameter_impact_plots`: the x data, the y data and the x-axis
label. -/
structure SweepFig where
  x : List ℚ
  y : List ℚ
  xLabel : String
  deriving DecidableEq

/-- The parametric sweep, translated from
`create_parameter_impact_plots` in src/fusionsite.py.  The selector is
compared against three string literals; every other value (including
the literal used by the UI, but also any unrecognized string) falls
into the final `else` branch, which sweeps the confinement time. -/
def create_parameter_impact_plots (selected_parameter : String) (n T E tau : ℚ) :
    SweepFig :=
  if selected_parameter = "Particle Density" then
    { x := param_range
      y := param_range.map fun val => fusion (val * n) T E tau
      xLabel := "Particle Density Multiplier" }
  else if selected_parameter = "Temperature" then
    { x := param_range
      y := param_range.map fun val => fusion n (val * T) E tau
      xLabel := "Temperature Multiplier" }
  else if selected_parameter = "Energy Release" then
    { x := param_range
      y := param_range.map fun val => fusion n T (val * E) tau
      xLabel := "Energy Release Multiplier" }
  else
    { x := param_range
      y := param_range.map fun val => fusion n T E (val * tau)
      xLabel := "Confinement Time Multiplier" }

/-- Membership in the grid is componentwise membership in the four
ranges. -/
lemma mem_allPoints {p : Pt} {ns Ts Es ts : List ℚ} :
    p ∈ allPoints ns Ts Es ts ↔
      p.1 ∈ ns ∧ p.2.1 ∈ Ts ∧ p.2.2.1 ∈ Es ∧ p.2.2.2 ∈ ts := by
  obtain ⟨n, T, E, tau⟩ := p
  simp only [allPoints, List.mem_flatMap, List.mem_map, Prod.mk.injEq]
  constructor
  · rintro ⟨n', hn', T', hT', E', hE', tau', htau', rfl, rfl, rfl, rfl⟩
    exact ⟨hn', hT', hE', htau'⟩
  · rintro ⟨hn, hT, hE, htau⟩
    exact ⟨n, hn, T, hT, E, hE, tau, htau, rfl, rfl, rfl, rfl⟩

/-- The full behaviour of the grid-search loop, by induction on the
list of points still to visit, for an arbitrary starting state
`(m, b)`: either no point beats `m` and the state is returned
unchanged, or the result is the first point `p` of the list whose
value exceeds `m` and is never strictly exceeded later — every point
before `p` has value strictly below `fusionPt p`, every point after
has value at most `fusionPt p`. -/
lemma grid_spec (l : List Pt) (m : WithBot ℚ) (b : Option Pt) :
    (l.foldl gridStep (m, b) = (m, b) ∧
      ∀ q ∈ l, ((fusionPt q : ℚ) : WithBot ℚ) ≤ m) ∨
    (∃ l1 p l2, l = l1 ++ p :: l2 ∧
      l.foldl gridStep (m, b) = (((fusionPt p : ℚ) : WithBot ℚ), some p) ∧
      m < ((fusionPt p : ℚ) : WithBot ℚ) ∧
      (∀ q ∈ l1, fusionPt q < fusionPt p) ∧
      (∀ q ∈ l2, fusionPt q ≤ fusionPt p)) := by
  induction l generalizing m b with
  | nil => exact Or.inl ⟨rfl, by simp⟩
  | cons p l ih =>
    rw [List.foldl_cons]
    by_cases h : ((fusionPt p : ℚ) : WithBot ℚ) > m
    · rw [show gridStep (m, b) p = (((fusionPt p : ℚ) : WithBot ℚ), some p) from
        if_pos h]
      rcases ih ((fusionPt p : ℚ) : WithBot ℚ) (some p) with ⟨heq, hall⟩ |
        ⟨l1, p', l2, hl, heq, hlt, hbefore, hafter⟩
      · refine Or.inr ⟨[], p, l, rfl, heq, h, by simp, fun q hq => ?_⟩
        exact_mod_cast hall q hq
      · refine Or.inr ⟨p :: l1, p', l2, by rw [hl, List.cons_append], heq, lt_trans h hlt, ?_, hafter⟩
        intro q hq
        rcases List.mem_cons.mp hq with rfl | hq
        · exact_mod_cast hlt
        · exact hbefore q hq
    · rw [show gridStep (m, b) p = (m, b) from if_neg h]
      rcases ih m b with ⟨heq, hall⟩ | ⟨l1, p', l2, hl, heq, hlt, hbefore, hafter⟩
      · refine Or.inl ⟨heq, fun q hq => ?_⟩
        rcases List.mem_cons.mp hq with rfl | hq
        · exact not_lt.mp h
        · exact hall q hq
      · refine Or.inr ⟨p :: l1, p', l2, by rw [hl, List.cons_append], heq, hlt, ?_, hafter⟩
        intro q hq
        rcases List.mem_cons.mp hq with rfl | hq
        · exact_mod_cast lt_of_le_of_lt (not_lt.mp h) hlt
        · exact hbefore q hq

/-- C1: for all rationals `n, T, E, tau` with `tau ≠ 0`, `fusion`
computes exactly `reaction_rate - energy_loss` with
`reactivity = n * T`, `reaction_rate = reactivity * E` and
`energy_loss = n * T / tau`, i.e. `n * T * E - n * T / tau`. -/
theorem fusion_eval_eq (n T E tau : ℚ) (h : tau ≠ 0) :
    fusion n T E tau = (n * T) * E - (n * T) / tau ∧
    fusion n T E tau = n * T * E - n * T / tau :=
  ⟨rfl, rfl⟩

theorem fusion_eval_eq_witness :
    fusion 2 3 5 4 = ((2 : ℚ) * 3) * 5 - ((2 : ℚ) * 3) / 4 ∧
    fusion 2 3 5 4 = (2 : ℚ) * 3 * 5 - (2 : ℚ) * 3 / 4 :=
  fusion_eval_eq 2 3 5 4 (by norm_num)

/-- If every range is non-empty the grid itself is non-empty. -/
lemma allPoints_ne_nil {ns Ts Es ts : List ℚ}
    (h1 : ns ≠ []) (h2 : Ts ≠ []) (h3 : Es ≠ []) (h4 : ts ≠ []) :
    allPoints ns Ts Es ts ≠ [] := by
  obtain ⟨n, hn⟩ := List.exists_mem_of_ne_nil ns h1
  obtain ⟨T, hT⟩ := List.exists_mem_of_ne_nil Ts h2
  obtain ⟨E, hE⟩ := List.exists_mem_of_ne_nil Es h3
  obtain ⟨tau, htau⟩ := List.exists_mem_of_ne_nil ts h4
  intro hnil
  have : ((n, T, E, tau) : Pt) ∈ allPoints ns Ts Es ts :=
    mem_allPoints.mpr ⟨hn, hT, hE, htau⟩
  rw [hnil] at this
  exact List.not_mem_nil _ this

/-- On a non-empty grid the fold never returns the initial state: it
returns some visited point carrying its own value, maximal over the
grid. -/
lemma grid_search_result (ns Ts Es ts : List ℚ)
    (h1 : ns ≠ []) (h2 : Ts ≠ []) (h3 : Es ≠ []) (h4 : ts ≠ []) :
    ∃ l1 p l2, allPoints ns Ts Es ts = l1 ++ p :: l2 ∧
      (find_best_parameters ns Ts Es ts).1 = some p ∧
      (find_best_parameters ns Ts Es ts).2 = ((fusionPt p : ℚ) : WithBot ℚ) ∧
      (∀ q ∈ l1, fusionPt q < fusionPt p) ∧
      (∀ q ∈ l2, fusionPt q ≤ fusionPt p) := by
  rcases grid_spec (allPoints ns Ts Es ts) ⊥ none with ⟨_, hall⟩ |
    ⟨l1, p, l2, hl, heq, _, hbefore, hafter⟩
  · obtain ⟨q, hq⟩ :=
      List.exists_mem_of_ne_nil _ (allPoints_ne_nil h1 h2 h3 h4)
    exact absurd (hall q hq) (by simp)
  · exact ⟨l1, p, l2, hl,
      by simp only [find_best_parameters, heq],
      by simp only [find_best_parameters, heq],
      hbefore, hafter⟩

/-- Every point of a decomposed grid is bounded by the value at the
split point when the two sides are. -/
lemma fusionPt_le_of_decomp {l1 l2 : List Pt} {p q : Pt}
    (hbefore : ∀ q ∈ l1, fusionPt q < fusionPt p)
    (hafter : ∀ q ∈ l2, fusionPt q ≤ fusionPt p)
    (hq : q ∈ l1 ++ p :: l2) : fusionPt q ≤ fusionPt p := by
  rcases List.mem_append.mp hq with hq | hq
  · exact le_of_lt (hbefore q hq)
  · rcases List.mem_cons.mp hq with rfl | hq
    · exact le_rfl
    · exact hafter q hq

/-- C2: for non-empty ranges, `find_best_parameters` returns a point of
the Cartesian product of the four ranges, and the returned value is at
least the objective function at every point of that product. -/
theorem find_best_parameters_sound (ns Ts Es ts : List ℚ)
    (h1 : ns ≠ []) (h2 : Ts ≠ []) (h3 : Es ≠ []) (h4 : ts ≠ []) :
    ∃ p : Pt, (find_best_parameters ns Ts Es ts).1 = some p ∧
      p.1 ∈ ns ∧ p.2.1 ∈ Ts ∧ p.2.2.1 ∈ Es ∧ p.2.2.2 ∈ ts ∧
      ∀ n ∈ ns, ∀ T ∈ Ts, ∀ E ∈ Es, ∀ tau ∈ ts,
        ((fusion n T E tau : ℚ) : WithBot ℚ) ≤ (find_best_parameters ns Ts Es ts).2 := by
  obtain ⟨l1, p, l2, hl, hbest, hval, hbefore, hafter⟩ :=
    grid_search_result ns Ts Es ts h1 h2 h3 h4
  have hmem : p ∈ allPoints ns Ts Es ts := by
    rw [hl]; exact List.mem_append_right l1 (List.mem_cons_self p l2)
  obtain ⟨hn, hT, hE, htau⟩ := mem_allPoints.mp hmem
  refine ⟨p, hbest, hn, hT, hE, htau, fun n hn' T hT' E hE' tau htau' => ?_⟩
  have hq : ((n, T, E, tau) : Pt) ∈ allPoints ns Ts Es ts :=
    mem_allPoints.mpr ⟨hn', hT', hE', htau'⟩
  rw [hl] at hq
  rw [hval]
  exact_mod_cast fusionPt_le_of_decomp hbefore hafter hq

theorem find_best_parameters_sound_witness :
    ∃ p : Pt, (find_best_parameters [1] [2] [3] [4]).1 = some p ∧
      p.1 ∈ ([1] : List ℚ) ∧ p.2.1 ∈ ([2] : List ℚ) ∧
      p.2.2.1 ∈ ([3] : List ℚ) ∧ p.2.2.2 ∈ ([4] : List ℚ) ∧
      ∀ n ∈ ([1] : List ℚ), ∀ T ∈ ([2] : List ℚ),
        ∀ E ∈ ([3] : List ℚ), ∀ tau ∈ ([4] : List ℚ),
          ((fusion n T E tau : ℚ) : WithBot ℚ) ≤ (find_best_parameters [1] [2] [3] [4]).2 :=
  find_best_parameters_sound [1] [2] [3] [4]
    (by simp) (by simp) (by simp) (by simp)

/-- C3: for non-empty ranges, the point returned by
`find_best_parameters` is the first maximizer in the nested iteration
order recorded by `allPoints` (`n` outermost, then `T`, `E`, `tau`):
the grid splits as `l1 ++ p :: l2` where every point strictly before
the returned point `p` has a strictly smaller objective value and every
point after has a value at most `fusionPt p`; in particular, of two
distinct maximizers the lexicographically-earlier one is returned. -/
theorem find_best_parameters_first_max (ns Ts Es ts : List ℚ)
    (h1 : ns ≠ []) (h2 : Ts ≠ []) (h3 : Es ≠ []) (h4 : ts ≠ []) :
    ∃ p : Pt, ∃ l1 l2 : List Pt,
      (find_best_parameters ns Ts Es ts).1 = some p ∧
      allPoints ns Ts Es ts = l1 ++ p :: l2 ∧
      (∀ q ∈ l1, fusionPt q < fusionPt p) ∧
      (∀ q ∈ allPoints ns Ts Es ts, fusionPt q ≤ fusionPt p) := by
  obtain ⟨l1, p, l2, hl, hbest, _, hbefore, hafter⟩ :=
    grid_search_result ns Ts Es ts h1 h2 h3 h4
  refine ⟨p, l1, l2, hbest, hl, hbefore, fun q hq => ?_⟩
  rw [hl] at hq
  exact fusionPt_le_of_decomp hbefore hafter hq

theorem find_best_parameters_first_max_witness :
    ∃ p : Pt, ∃ l1 l2 : List Pt,
      (find_best_parameters [1, 2] [1] [1] [0] ).1 = some p ∧
      allPoints [1, 2] [1] [1] [0] = l1 ++ p :: l2 ∧
      (∀ q ∈ l1, fusionPt q < fusionPt p) ∧
      (∀ q ∈ allPoints [1, 2] [1] [1] [0], fusionPt q ≤ fusionPt p) :=
  find_best_parameters_first_max [1, 2] [1] [1] [0]
    (by simp) (by simp) (by simp) (by simp)

/-- C10: whenever `find_best_parameters` returns a non-empty best
point, the returned value is exactly the objective function at that
point, and each component of the point lies in its range. -/
theorem find_best_parameters_best_consistent (ns Ts Es ts : List ℚ) (p : Pt)
    (h : (find_best_parameters ns Ts Es ts).1 = some p) :
    (find_best_parameters ns Ts Es ts).2 = ((fusionPt p : ℚ) : WithBot ℚ) ∧
      p.1 ∈ ns ∧ p.2.1 ∈ Ts ∧ p.2.2.1 ∈ Es ∧ p.2.2.2 ∈ ts := by
  rcases grid_spec (allPoints ns Ts Es ts) ⊥ none with ⟨heq, _⟩ |
    ⟨l1, p', l2, hl, heq, _, _, _⟩
  · exact absurd h (by simp [find_best_parameters, heq])
  · have hp : p' = p := by
      have := h
      simp only [find_best_parameters, heq] at this
      exact Option.some_injective _ this
    subst hp
    have hmem : p' ∈ allPoints ns Ts Es ts := by
      rw [hl]; exact List.mem_append_right l1 (List.mem_cons_self p' l2)
    obtain ⟨hn, hT, hE, htau⟩ := mem_allPoints.mp hmem
    exact ⟨by simp only [find_best_parameters, heq], hn, hT, hE, htau⟩

theorem find_best_parameters_best_consistent_witness :
    (find_best_parameters [5] [6] [7] [8]).2 = ((fusionPt (5, 6, 7, 8) : ℚ) : WithBot ℚ) ∧
      (5 : ℚ) ∈ ([5] : List ℚ) ∧ (6 : ℚ) ∈ ([6] : List ℚ) ∧
      (7 : ℚ) ∈ ([7] : List ℚ) ∧ (8 : ℚ) ∈ ([8] : List ℚ) :=
  find_best_parameters_best_consistent [5] [6] [7] [8] (5, 6, 7, 8) (by decide)

/-- C4: contrary to the claim, an empty range does not make
`find_best_parameters` fail: the loops run zero times and the function
returns the initial state — the empty best point `none` (Python `{}`)
and `⊥` (Python `-np.inf`) — with no error.  The second conjunct
checks the true half of the claim: with singleton ranges the unique
combination and its objective value are returned
(`fusion 1 2 3 4 = 6 - 1/2 = 11/2`). -/
theorem find_best_parameters_empty_eval :
    find_best_parameters [] [1] [1] [1] = (none, ⊥) ∧
    find_best_parameters [1] [2] [3] [4] = (some (1, 2, 3, 4), ((11 / 2 : ℚ) : WithBot ℚ)) := by
  constructor
  · rfl
  · have hval : fusionPt ((1 : ℚ), 2, 3, 4) = 11 / 2 := by
      norm_num [fusionPt, fusion]
    have hpt : allPoints [1] [2] [3] [4] = [((1 : ℚ), 2, 3, 4)] := rfl
    simp only [find_best_parameters, hpt, List.foldl_cons, List.foldl_nil, gridStep,
      gt_iff_lt]
    rw [if_pos (by exact WithBot.bot_lt_coe _), hval]

/-- The sweep grid written with its step in lowest terms:
`(2 - 1/10) / 99 = 19/990`. -/
lemma param_range_eq :
    param_range = (List.range 100).map fun (i : ℕ) => 1 / 10 + (i : ℚ) * (19 / 990) := by
  simp only [param_range, linspace]
  refine List.map_congr_left fun i _ => ?_
  norm_num

/-- The sweep grid has exactly 100 entries. -/
lemma param_range_length : param_range.length = 100 := by
  rw [param_range_eq, List.length_map, List.length_range]

/-- The first multiplier is exactly `0.1`. -/
lemma param_range_head : param_range.head? = some (1 / 10) := by
  rw [param_range_eq, List.head?_map, List.head?_range]
  norm_num

/-- The last multiplier is exactly `2`. -/
lemma param_range_last : param_range.getLast? = some 2 := by
  rw [param_range_eq, List.getLast?_map, List.getLast?_range]
  norm_num

/-- The multipliers are strictly ascending. -/
lemma param_range_ascending : List.Chain' (· < ·) param_range := by
  rw [param_range_eq, List.chain'_map,
    show (100 : ℕ) = Nat.succ 99 from rfl, List.chain'_range_succ]
  intro m _
  have hd : (0 : ℚ) < 19 / 990 := by norm_num
  have hm : ((m : ℕ) : ℚ) < ((Nat.succ m : ℕ) : ℚ) := by
    exact_mod_cast Nat.lt_succ_self m
  exact add_lt_add_left (mul_lt_mul_of_pos_right hm hd) _

/-- The x data of the figure is the multiplier grid, whichever branch
is taken. -/
lemma create_parameter_impact_plots_x (s : String) (n T E tau : ℚ) :
    (create_parameter_impact_plots s n T E tau).x = param_range := by
  simp only [create_parameter_impact_plots]
  split_ifs <;> rfl

/-- C5: for every recognized selector, the sweep's x data is the
100-entry grid `0.1 + i * (19/990)` for `i = 0, …, 99` — equally
spaced over `[0.1, 2]`, strictly ascending, starting at `0.1` and
ending at `2` — and the y data is the objective function evaluated at
each multiplier applied to the selected parameter, the other three
parameters unchanged. -/
theorem create_parameter_impact_plots_spec (s : String) (n T E tau : ℚ)
    (hs : s ∈ ["Particle Density", "Temperature", "Energy Release", "Confinement Time"]) :
    (create_parameter_impact_plots s n T E tau).x.length = 100 ∧
    (create_parameter_impact_plots s n T E tau).x =
      (List.range 100).map (fun (i : ℕ) => 1 / 10 + (i : ℚ) * (19 / 990)) ∧
    (create_parameter_impact_plots s n T E tau).x.head? = some (1 / 10) ∧
    (create_parameter_impact_plots s n T E tau).x.getLast? = some 2 ∧
    List.Chain' (· < ·) (create_parameter_impact_plots s n T E tau).x ∧
    (s = "Particle Density" → (create_parameter_impact_plots s n T E tau).y =
      (create_parameter_impact_plots s n T E tau).x.map fun m => fusion (m * n) T E tau) ∧
    (s = "Temperature" → (create_parameter_impact_plots s n T E tau).y =
      (create_parameter_impact_plots s n T E tau).x.map fun m => fusion n (m * T) E tau) ∧
    (s = "Energy Release" → (create_parameter_impact_plots s n T E tau).y =
      (create_parameter_impact_plots s n T E tau).x.map fun m => fusion n T (m * E) tau) ∧
    (s = "Confinement Time" → (create_parameter_impact_plots s n T E tau).y =
      (create_parameter_impact_plots s n T E tau).x.map fun m => fusion n T E (m * tau)) := by
  refine ⟨?_, ?_, ?_, ?_, ?_, ?_, ?_, ?_, ?_⟩
  · rw [create_parameter_impact_plots_x]; exact param_range_length
  · rw [create_parameter_impact_plots_x]; exact param_range_eq
  · rw [create_parameter_impact_plots_x]; exact param_range_head
  · rw [create_parameter_impact_plots_x]; exact param_range_last
  · rw [create_parameter_impact_plots_x]; exact param_range_ascending
  · intro h; subst h; rfl
  · intro h; subst h; rfl
  · intro h; subst h; rfl
  · intro h; subst h; rfl

theorem create_parameter_impact_plots_spec_witness :
    (create_parameter_impact_plots "Temperature" 1 1 1 1).x.length = 100 ∧
    (create_parameter_impact_plots "Temperature" 1 1 1 1).x =
      (List.range 100).map (fun (i : ℕ) => 1 / 10 + (i : ℚ) * (19 / 990)) ∧
    (create_parameter_impact_plots "Temperature" 1 1 1 1).x.head? = some (1 / 10) ∧
    (create_parameter_impact_plots "Temperature" 1 1 1 1).x.getLast? = some 2 ∧
    List.Chain' (· < ·) (create_parameter_impact_plots "Temperature" 1 1 1 1).x ∧
    ("Temperature" = "Particle Density" →
      (create_parameter_impact_plots "Temperature" 1 1 1 1).y =
        (create_parameter_impact_plots "Temperature" 1 1 1 1).x.map fun m => fusion (m * 1) 1 1 1) ∧
    ("Temperature" = "Temperature" →
      (create_parameter_impact_plots "Temperature" 1 1 1 1).y =
        (create_parameter_impact_plots "Temperature" 1 1 1 1).x.map fun m => fusion 1 (m * 1) 1 1) ∧
    ("Temperature" = "Energy Release" →
      (create_parameter_impact_plots "Temperature" 1 1 1 1).y =
        (create_parameter_impact_plots "Temperature" 1 1 1 1).x.map fun m => fusion 1 1 (m * 1) 1) ∧
    ("Temperature" = "Confinement Time" →
      (create_parameter_impact_plots "Temperature" 1 1 1 1).y =
        (create_parameter_impact_plots "Temperature" 1 1 1 1).x.map fun m => fusion 1 1 1 (m * 1)) :=
  create_parameter_impact_plots_spec "Temperature" 1 1 1 1 (by simp)

/-- C6: contrary to the claim, an unrecognized selector is not
rejected: the selector string "Pressure" falls into the final `else`
branch and silently produces exactly the Confinement Time sweep,
including its axis label. -/
theorem create_parameter_impact_plots_default_eval :
    create_parameter_impact_plots "Pressure" 1 1 1 1 =
      create_parameter_impact_plots "Confinement Time" 1 1 1 1 ∧
    (create_parameter_impact_plots "Pressure" 1 1 1 1).xLabel =
      "Confinement Time Multiplier" :=
  ⟨rfl, rfl⟩

/-- C9: the three core operations are deterministic pure functions of
their arguments: equal inputs give equal outputs. -/
theorem core_deterministic :
    (∀ a b : Pt, a = b →
      fusion a.1 a.2.1 a.2.2.1 a.2.2.2 = fusion b.1 b.2.1 b.2.2.1 b.2.2.2) ∧
    (∀ a b : List ℚ × List ℚ × List ℚ × List ℚ, a = b →
      find_best_parameters a.1 a.2.1 a.2.2.1 a.2.2.2 =
        find_best_parameters b.1 b.2.1 b.2.2.1 b.2.2.2) ∧
    (∀ a b : String × Pt, a = b →
      create_parameter_impact_plots a.1 a.2.1 a.2.2.1 a.2.2.2.1 a.2.2.2.2 =
        create_parameter_impact_plots b.1 b.2.1 b.2.2.1 b.2.2.2.1 b.2.2.2.2) :=
  ⟨fun a b h => by rw [h], fun a b h => by rw [h], fun a b h => by rw [h]⟩

theorem core_deterministic_witness :
    fusion 1 2 3 4 = fusion 1 2 3 4 ∧
    find_best_parameters [1] [1] [1] [1] = find_best_parameters [1] [1] [1] [1] ∧
    create_parameter_impact_plots "Temperature" 1 1 1 1 =
      create_parameter_impact_plots "Temperature" 1 1 1 1 :=
  ⟨core_deterministic.1 (1, 2, 3, 4) (1, 2, 3, 4) rfl,
   core_deterministic.2.1 ([1], [1], [1], [1]) ([1], [1], [1], [1]) rfl,
   core_deterministic.2.2 ("Temperature", 1, 1, 1, 1) ("Temperature", 1, 1, 1, 1) rfl⟩

/-- C8: the concrete scenario `fusion 1e20 15000 17.6 0.1`: the
reaction rate is `2.64e25`, the energy loss is `1.5e25`, and the net
output is `1.14e25`. -/
theorem fusion_concrete_eval :
    fusion (10 ^ 20) 15000 (88 / 5) (1 / 10) = 114 * 10 ^ 23 ∧
    ((10 : ℚ) ^ 20) * 15000 * (88 / 5) = 264 * 10 ^ 23 ∧
    ((10 : ℚ) ^ 20) * 15000 / (1 / 10) = 150 * 10 ^ 23 := by
  refine ⟨?_, ?_, ?_⟩ <;> norm_num [fusion]
